import Mathlib

/-!
Verification of the cppcheck scan-task adapter (`client/tool/cppcheck.py`).

The Python module is embedded shallowly: file contents are passed around as
explicit `String`/`List String` values, subprocess exit codes as `Int`
parameters, and a Python exception (`ValueError` from `int(...)`, and the
`ConfigError` raised on a failed errorlist run) as the `Except.error`
constructor.  Python `str` primitives used by the module (`split`,
`startswith`, `endswith`, slicing, `int()`, `readlines`) are modelled over
`List Char`, which matches Python's code-point based string semantics.
-/

/-- The canonical issue record built by `_format_result`: one Python dict with
keys path / line / column / msg / rule. -/
structure Issue where
  path : String
  line : Int
  column : String
  msg : String
  rule : String
  deriving DecidableEq, Repr

/-- The fixed field delimiter used in the cppcheck `--template` argument. -/
def CODEDOG : String := "[CODEDOG]"

/-- Worker for `pySplit`: left-to-right scan, cutting at each non-overlapping
occurrence of the fixed separator `[CODEDOG]` (spelled out character by
character so the recursion is structural), exactly as Python's
`str.split(sep)` does for a non-empty separator. -/
def pySplitAux (cur : List Char) : List Char → List (List Char)
  | '[' :: 'C' :: 'O' :: 'D' :: 'E' :: 'D' :: 'O' :: 'G' :: ']' :: rest =>
    cur :: pySplitAux [] rest
  | c :: cs => pySplitAux (cur ++ [c]) cs
  | [] => [cur]

/-- Python's `line.split("[CODEDOG]")`. -/
def pySplit (s : String) : List String :=
  (pySplitAux [] s.data).map (fun cs => String.mk cs)

/-- Python's `s[i:]` (slicing counts code points, like `List Char`). -/
def pySliceFrom (s : String) (i : Nat) : String :=
  String.mk (s.data.drop i)

/-- Python's `s.startswith(pre)`. -/
def py_startswith (s pre : String) : Bool :=
  pre.data.isPrefixOf s.data

/-- Python's `s.endswith(suf)`. -/
def py_endswith (s suf : String) : Bool :=
  suf.data.isSuffixOf s.data

/-- Whitespace characters stripped by Python's `int(str)` before parsing. -/
def pyWhitespace : List Char := [' ', '\t', '\n', '\r', '\x0b', '\x0c']

/-- Strip `pyWhitespace` from both ends of a character list. -/
def pyStrip (cs : List Char) : List Char :=
  ((cs.dropWhile (fun c => pyWhitespace.contains c)).reverse.dropWhile
    (fun c => pyWhitespace.contains c)).reverse

/-- Digits after the first one: a digit, or an underscore followed by a digit
(Python 3 permits single underscores between digits). -/
def pyDigitsAux (acc : Nat) : List Char → Option Nat
  | [] => some acc
  | '_' :: c :: rest =>
    if c.isDigit then pyDigitsAux (acc * 10 + (c.toNat - 48)) rest else none
  | ['_'] => none
  | c :: rest =>
    if c.isDigit then pyDigitsAux (acc * 10 + (c.toNat - 48)) rest else none

/-- A non-empty ASCII digit run (with optional internal underscores). -/
def pyDigits : List Char → Option Nat
  | [] => none
  | '_' :: _ => none
  | c :: rest => if c.isDigit then pyDigitsAux (c.toNat - 48) rest else none

/-- Python's `int(s)` on decimal strings: surrounding whitespace, an optional
sign, then decimal digits; `none` models the `ValueError` raised on anything
else.  (Non-ASCII digit forms accepted by CPython are out of scope: tool
output line numbers are ASCII.) -/
def pyInt (s : String) : Option Int :=
  match pyStrip s.data with
  | '+' :: rest => (pyDigits rest).map (fun n => (n : Int))
  | '-' :: rest => (pyDigits rest).map (fun n => -(n : Int))
  | cs => (pyDigits cs).map (fun n => (n : Int))

/-- The fixed denylist inside `_format_result` ("unsupported rule" branch). -/
def deny_rules : List String := ["missingInclude", "MissingIncludeSystem"]

/-- One iteration of the parsing loop in `_format_result` (lines 199-223 of
`cppcheck.py`): split the raw line on the delimiter, apply the field-count,
non-emptiness, supported-rule, denylist and requested-rule filters in source
order, then build the issue dict. `.ok none` is a `continue`; `.error` is the
uncaught `ValueError` from `int(error[1])`. -/
def processLine (relpos : Nat) (rules supported_rules : List String)
    (line : String) : Except String (Option Issue) :=
  let error := pySplit line
  if error.length ≠ 5 then .ok none
  else if "" ∈ error then .ok none
  else
    let rule := error.getD 2 ""
    if rule ∉ supported_rules then .ok none
    else if rule ∈ deny_rules then .ok none
    else if rule ∉ rules then .ok none
    else
      match pyInt (error.getD 1 "") with
      | some n =>
        .ok (some { path := pySliceFrom (error.getD 0 "") relpos, line := n,
                    column := "1", msg := error.getD 4 "", rule := rule })
      | none => .error (error.getD 1 "")

/-- The `for line in lines` loop of `_format_result`: issues are accumulated
in line order; a raised `ValueError` aborts the whole call. -/
def format_lines (relpos : Nat) (rules supported_rules : List String) :
    List String → Except String (List Issue)
  | [] => .ok []
  | line :: rest =>
    match processLine relpos rules supported_rules line with
    | .error e => .error e
    | .ok none => format_lines relpos rules supported_rules rest
    | .ok (some issue) =>
      match format_lines relpos rules supported_rules rest with
      | .error e => .error e
      | .ok issues => .ok (issue :: issues)

/-- `_format_result(source_dir, scan_result_path, rules, supported_rules)`:
`lines` is `rf.readlines()` of the result file, `relpos = len(source_dir)+1`
as computed on line 196. -/
def format_result (source_dir : String) (lines : List String)
    (rules supported_rules : List String) : Except String (List Issue) :=
  format_lines (source_dir.length + 1) rules supported_rules lines

/-- Worker for `readlines`: cut after every newline character, keeping it,
and keep a final newline-less fragment, as Python's `file.readlines()` does
on a POSIX text stream. -/
def readlinesAux (cur : List Char) : List Char → List String
  | [] => if cur = [] then [] else [String.mk cur]
  | c :: cs =>
    if c = '\n' then String.mk (cur ++ [c]) :: readlinesAux [] cs
    else readlinesAux (cur ++ [c]) cs

/-- Python's `rf.readlines()` applied to file content `s`. -/
def readlines (s : String) : List String := readlinesAux [] s.data

/-- The locale-warning preamble literal `error_msg` of `_run_cppcheck`
(line 175 of `cppcheck.py`). -/
def locale_warning : String :=
  "/bin/sh: warning: setlocale: LC_ALL: cannot change locale (en_US.UTF-8)\n"

/-- Lines 168-181 of `_run_cppcheck` on a POSIX host, given the content of
`cppcheck_result.xml` after the scan subprocess.  The function reads the file
into the local variable `scan_result`, strips the locale preamble from that
local string, and returns the result *path*; the file itself is never
rewritten.  The pair returned here makes both values explicit:
first component = the final value of the local `scan_result` string,
second component = the content of the file at the returned path, which is
what `_format_result` later re-reads. -/
def run_cppcheck_postprocess (scan_result : String) : String × String :=
  let stripped :=
    if py_startswith scan_result locale_warning then
      pySliceFrom scan_result locale_warning.length
    else scan_result
  (stripped, scan_result)

/-- One record of the diff produced by the external SCM collaborator
(`SCMMgr(params).get_scm_diff()`): a relative path and a change-state string;
the deleted change-state is encoded as `"del"` (line 55 of `cppcheck.py`
tests `diff.state != "del"`). -/
structure DiffEntry where
  path : String
  state : String
  deriving DecidableEq, Repr

/-- The extension allow-list `want_suffix` of `analyze` (line 49). -/
def want_suffix : List String :=
  [".cpp", ".cxx", ".cc", ".c++", ".c", ".tpp", ".txx"]

/-- Python's `os.path.join(a, b)` for two components on a POSIX host
(`os.sep = "/"`, so the subsequent `.replace(os.sep, "/")` is the
identity and is not modelled separately). -/
def os_path_join (a b : String) : String :=
  if py_startswith b "/" then b
  else if a = "" then b
  else if py_endswith a "/" then a ++ b
  else a ++ "/" ++ b

/-- The incremental branch of file selection in `analyze` (lines 50-56):
keep diff entries whose path ends with an allowed suffix and whose state is
not `"del"`, and join each retained relative path onto the source root. -/
def select_incremental (source_dir : String) (diffs : List DiffEntry) :
    List String :=
  (diffs.filter (fun d =>
      (want_suffix.any (fun suf => py_endswith d.path suf)) &&
      (d.state != "del"))).map
    (fun d => os_path_join source_dir d.path)

/-- Line 72 of `analyze`: `[r for r in rules if r not in supported_rules]`. -/
def filtered_rules (rules supported_rules : List String) : List String :=
  rules.filter (fun r => decide (r ∉ supported_rules))

/-- Line 73 of `analyze`: `list(set(rules) - set(filtered_rules))`, i.e. the
requested rules with the unsupported ones removed (Python's arbitrary set
order is modelled by `dedup`; only membership matters downstream). -/
def negotiated_rules (rules supported_rules : List String) : List String :=
  (rules.filter (fun r =>
      decide (r ∉ filtered_rules rules supported_rules))).dedup

/-- Lookup in a Python dict built from an association list by a dict
comprehension: the last binding for a key wins. -/
def dictLookup (m : List (String × String)) (k : String) : Option String :=
  (m.reverse.find? (fun p => p.1 == k)).map (fun p => p.2)

/-- Evaluate `f` on every element left to right; `none` as soon as one
element fails, modelling a `KeyError` escaping a comprehension. -/
def mapOpt (f : String → Option String) : List String → Option (List String)
  | [] => some []
  | x :: xs =>
    match f x, mapOpt f xs with
    | some v, some vs => some (v :: vs)
    | _, _ => none

/-- `_get_needed_visitors(id_severity_map, rule_list)` (lines 108-112):
`{id_severity_map[rule_name] for rule_name in rule_list} - {"error"}`, with
the map given as the association list the errorlist XML was parsed into.
`none` models the `KeyError` raised when a rule is absent from the map. -/
def get_needed_visitors (id_severity_map : List (String × String))
    (rule_list : List String) : Option (List String) :=
  (mapOpt (fun r => dictLookup id_severity_map r) rule_list).map
    (fun sevs => (sevs.filter (fun s => decide (s ≠ "error"))).dedup)

/-- The `--enable=...` argument construction of `_run_cppcheck`
(lines 131-138): with no rules, the fixed broad bundle is enabled; otherwise
the severity categories of the requested rules, when there are any.  (The
`-j <cpu_count>` argument is host-dependent and carries no rule information,
so it is not modelled.) -/
def enable_args (rules : List String) (id_severity_map : List (String × String)) :
    Option (List String) :=
  if rules.isEmpty then some ["--enable=warning,style,information"]
  else
    match get_needed_visitors id_severity_map rules with
    | none => none
    | some visitors =>
      some (if visitors.isEmpty then []
            else ["--enable=" ++ String.intercalate "," visitors])

/-- `_get_id_severity_map` (lines 85-106): `return_code` is the exit code of
the `cppcheck --errorlist` subprocess, `errorlist_entries` the
`(id, severity)` attribute pairs of the children of the `errors` element of
the XML it produced.  A nonzero exit code raises `ConfigError`; otherwise the
dict comprehension over the entries is returned. -/
def get_id_severity_map (return_code : Int)
    (errorlist_entries : List (String × String)) :
    Except String (List (String × String)) :=
  if return_code ≠ 0 then
    .error "当前机器环境可能不支持cppcheck执行，请查阅任务日志，根据实际情况适配。"
  else .ok errorlist_entries

/-- `check_tool_usable` (lines 226-235): `version_return_code` is the exit
code of `cppcheck --version` as reported by `SubProcController.wait()` (when
the binary is absent from PATH the runner reports a nonzero code rather than
leaking an exception, per the spec's Availability Prober contract).  The
returned capability list is empty (falsy) when the probe fails and
`["analyze"]` (truthy) when it succeeds. -/
def check_tool_usable (version_return_code : Int) : List String :=
  if version_return_code ≠ 0 then [] else ["analyze"]

/-- Lines 78-83 of `analyze`: the scan-result file after `_run_cppcheck`,
as `none` (file does not exist) or `some lines` (its readlines), is turned
into the issue response: a missing artifact short-circuits to `[]`, an
existing one is parsed by `_format_result`. -/
def analyze_result (source_dir : String) (scan_result : Option (List String))
    (rules supported_rules : List String) : Except String (List Issue) :=
  match scan_result with
  | none => .ok []
  | some lines => format_result source_dir lines rules supported_rules

/-! Helper lemmas -/

lemma string_data_append (s t : String) : (s ++ t).data = s.data ++ t.data := by
  cases s; cases t; rfl

lemma mem_negotiated_rules {r : String} {rules supported_rules : List String} :
    r ∈ negotiated_rules rules supported_rules ↔
      (r ∈ rules ∧ r ∈ supported_rules) := by
  simp only [negotiated_rules, filtered_rules, List.mem_dedup, List.mem_filter,
    decide_eq_true_eq]
  tauto

lemma readlinesAux_newline (pre : List Char) (hpre : '\n' ∉ pre) :
    ∀ (cur rest : List Char),
      readlinesAux cur (pre ++ '\n' :: rest) =
        String.mk (cur ++ pre ++ ['\n']) :: readlinesAux [] rest := by
  induction pre with
  | nil => intro cur rest; simp [readlinesAux]
  | cons c cs ih =>
    intro cur rest
    have hc : c ≠ '\n' := fun h => hpre (h ▸ List.mem_cons_self c cs)
    have hcs : '\n' ∉ cs := fun h => hpre (List.mem_cons_of_mem _ h)
    simp only [List.cons_append, readlinesAux, if_neg hc, List.append_eq]
    rw [ih hcs (cur ++ [c])]
    simp

lemma readlines_locale_cons (rest : String) :
    readlines (locale_warning ++ rest) = locale_warning :: readlines rest := by
  unfold readlines
  rw [string_data_append]
  rw [show locale_warning.data = locale_warning.data.dropLast ++ ['\n'] from by decide]
  rw [List.append_assoc, List.singleton_append]
  rw [readlinesAux_newline _ (by decide)]
  rw [show String.mk ([] ++ locale_warning.data.dropLast ++ ['\n']) = locale_warning from by decide]

lemma processLine_ok_some {relpos : Nat} {rules supported_rules : List String}
    {line : String} {i : Issue}
    (h : processLine relpos rules supported_rules line = .ok (some i)) :
    i.rule ∈ rules ∧ i.rule ∉ deny_rules := by
  simp only [processLine] at h
  split at h
  next => simp at h
  next hlen =>
    split at h
    next => simp at h
    next hemp =>
      split at h
      next => simp at h
      next hsup =>
        split at h
        next => simp at h
        next hdeny =>
          split at h
          next => simp at h
          next hrules =>
            split at h
            next n hpy =>
              injection h with h1
              injection h1 with h2
              subst h2
              exact ⟨not_not.mp hrules, hdeny⟩
            next hpy => simp at h

lemma processLine_all_denied {relpos : Nat} {rules supported_rules : List String}
    (line : String) (hsub : ∀ r ∈ rules, r ∈ deny_rules) :
    processLine relpos rules supported_rules line = .ok none := by
  simp only [processLine]
  split
  next => rfl
  next hlen =>
    split
    next => rfl
    next hemp =>
      split
      next => rfl
      next hsup =>
        split
        next => rfl
        next hdeny =>
          split
          next => rfl
          next hrules =>
            exact absurd (hsub _ (not_not.mp hrules)) hdeny

lemma format_lines_rule_filters {relpos : Nat} {rules supported_rules : List String} :
    ∀ {lines : List String} {issues : List Issue},
      format_lines relpos rules supported_rules lines = .ok issues →
      ∀ i ∈ issues, i.rule ∈ rules ∧ i.rule ∉ deny_rules := by
  intro lines
  induction lines with
  | nil =>
    intro issues h
    simp only [format_lines] at h
    injection h with h1
    subst h1
    simp
  | cons line rest ih =>
    intro issues h i hi
    simp only [format_lines] at h
    split at h
    next e he => simp at h
    next he => exact ih h i hi
    next issue he =>
      split at h
      next e h2 => simp at h
      next issues' h2 =>
        injection h with h1
        subst h1
        rcases List.mem_cons.mp hi with rfl | hi'
        · exact processLine_ok_some he
        · exact ih h2 i hi'

lemma format_lines_all_denied {relpos : Nat} {rules supported_rules : List String}
    (lines : List String) (hsub : ∀ r ∈ rules, r ∈ deny_rules) :
    format_lines relpos rules supported_rules lines = .ok [] := by
  induction lines with
  | nil => rfl
  | cons line rest ih =>
    simp [format_lines, processLine_all_denied line hsub, ih]

lemma mapOpt_some_mem {f : String → Option String} :
    ∀ {l : List String} {vs : List String}, mapOpt f l = some vs →
      ∀ v, v ∈ vs ↔ ∃ r ∈ l, f r = some v := by
  intro l
  induction l with
  | nil =>
    intro vs h
    simp only [mapOpt] at h
    injection h with h1
    subst h1
    simp
  | cons x xs ih =>
    intro vs h v
    simp only [mapOpt] at h
    split at h
    next v' vs' heq1 heq2 =>
      injection h with h1
      subst h1
      constructor
      · rintro hv
        rcases List.mem_cons.mp hv with rfl | hv'
        · exact ⟨x, List.mem_cons_self _ _, heq1⟩
        · obtain ⟨r, hr, hfr⟩ := (ih heq2 v).mp hv'
          exact ⟨r, List.mem_cons_of_mem _ hr, hfr⟩
      · rintro ⟨r, hr, hfr⟩
        rcases List.mem_cons.mp hr with rfl | hr'
        · rw [heq1] at hfr
          exact (Option.some_inj.mp hfr) ▸ List.mem_cons_self _ _
        · exact List.mem_cons_of_mem _ ((ih heq2 v).mpr ⟨r, hr', hfr⟩)
    next hne => simp at h

/-- C1 (counterexample): a raw output line with exactly 5 non-empty fields
whose rule id "nullPointer" is in the supported catalog nevertheless yields
zero issues, because "nullPointer" is not in the negotiated rule list passed
to _format_result. -/
theorem C1_counterexample :
    (pySplit "/src/a.cpp[CODEDOG]12[CODEDOG]nullPointer[CODEDOG]error[CODEDOG]Null dereference\n").length = 5 ∧
    "" ∉ pySplit "/src/a.cpp[CODEDOG]12[CODEDOG]nullPointer[CODEDOG]error[CODEDOG]Null dereference\n" ∧
    "nullPointer" ∈ (["nullPointer", "uninitvar"] : List String) ∧
    format_result "/src"
      ["/src/a.cpp[CODEDOG]12[CODEDOG]nullPointer[CODEDOG]error[CODEDOG]Null dereference\n"]
      ["uninitvar"] ["nullPointer", "uninitvar"] = .ok [] :=
  ⟨by decide, by decide, by decide, by rfl⟩

/-- C1 (amended): a raw output line with exactly 5 non-empty fields whose
rule id is in the supported catalog, is not denylisted, is in the negotiated
rule list, and whose line field parses as an integer, yields exactly one
issue with the path stripped of the first relpos characters and the parsed
line number; a line violating the field-count or non-emptiness constraint
yields zero issues. -/
theorem C1_amended :
    (∀ (source_dir line f l r s m : String) (rules supported_rules : List String) (n : Int),
        pySplit line = [f, l, r, s, m] →
        f ≠ "" → l ≠ "" → r ≠ "" → s ≠ "" → m ≠ "" →
        r ∈ supported_rules → r ∉ deny_rules → r ∈ rules →
        pyInt l = some n →
        format_result source_dir [line] rules supported_rules =
          .ok [{ path := pySliceFrom f (source_dir.length + 1), line := n,
                 column := "1", msg := m, rule := r }]) ∧
    (∀ (source_dir line : String) (rules supported_rules : List String),
        ((pySplit line).length ≠ 5 ∨ "" ∈ pySplit line) →
        format_result source_dir [line] rules supported_rules = .ok []) := by
  constructor
  · intro src line f l r s m rules sup n hsplit hf hl hr hs hm hsup hdeny hrules hpy
    have hp : processLine (src.length + 1) rules sup line =
        .ok (some { path := pySliceFrom f (src.length + 1), line := n,
                    column := "1", msg := m, rule := r }) := by
      simp only [processLine, hsplit]
      have hmem : ¬("" ∈ [f, l, r, s, m]) := by
        simp only [List.mem_cons, List.not_mem_nil, or_false]
        push_neg
        exact ⟨Ne.symm hf, Ne.symm hl, Ne.symm hr, Ne.symm hs, Ne.symm hm⟩
      simp only [List.getD_cons_succ, List.getD_cons_zero]
      rw [if_neg (by simp), if_neg hmem, if_neg (not_not_intro hsup),
        if_neg hdeny, if_neg (not_not_intro hrules), hpy]
    simp [format_result, format_lines, hp]
  · intro src line rules sup h
    have hp : processLine (src.length + 1) rules sup line = .ok none := by
      simp only [processLine]
      rcases h with h | h
      · rw [if_pos h]
      · by_cases h5 : (pySplit line).length ≠ 5
        · rw [if_pos h5]
        · rw [if_neg h5, if_pos h]
    simp [format_result, format_lines, hp]

/-- C1 witness: the amended theorem applied at a concrete well-formed line
and at a concrete malformed line. -/
theorem C1_amended_witness :
    format_result "/src"
      ["/src/a.cpp[CODEDOG]12[CODEDOG]nullPointer[CODEDOG]error[CODEDOG]Null dereference\n"]
      ["nullPointer"] ["nullPointer"] =
      .ok [{ path := "a.cpp", line := 12, column := "1",
             msg := "Null dereference\n", rule := "nullPointer" }] ∧
    format_result "/src" ["garbage line"] ["nullPointer"] ["nullPointer"] = .ok [] := by
  constructor
  · have h := C1_amended.1 "/src"
      "/src/a.cpp[CODEDOG]12[CODEDOG]nullPointer[CODEDOG]error[CODEDOG]Null dereference\n"
      "/src/a.cpp" "12" "nullPointer" "error" "Null dereference\n"
      ["nullPointer"] ["nullPointer"] 12
      (by decide) (by decide) (by decide) (by decide) (by decide) (by decide)
      (by decide) (by decide) (by decide) (by decide)
    rw [show pySliceFrom "/src/a.cpp" ("/src".length + 1) = "a.cpp" from by decide] at h
    exact h
  · exact C1_amended.2 "/src" "garbage line" ["nullPointer"] ["nullPointer"]
      (Or.inl (by decide))

/-- C2 (counterexample): for a result file beginning with the locale-warning
preamble, the content _format_result later reads (second component of
run_cppcheck_postprocess) is the unmodified file content, which still begins
with the preamble, and differs from the stripped local string: the preamble
is NOT stripped from the data handed to structured parsing. -/
theorem C2_counterexample :
    py_startswith (locale_warning ++ "/src/a.cpp[CODEDOG]12[CODEDOG]nullPointer[CODEDOG]error[CODEDOG]msg\n") locale_warning = true ∧
    (run_cppcheck_postprocess (locale_warning ++ "/src/a.cpp[CODEDOG]12[CODEDOG]nullPointer[CODEDOG]error[CODEDOG]msg\n")).2 =
      locale_warning ++ "/src/a.cpp[CODEDOG]12[CODEDOG]nullPointer[CODEDOG]error[CODEDOG]msg\n" ∧
    (run_cppcheck_postprocess (locale_warning ++ "/src/a.cpp[CODEDOG]12[CODEDOG]nullPointer[CODEDOG]error[CODEDOG]msg\n")).2 ≠
      (run_cppcheck_postprocess (locale_warning ++ "/src/a.cpp[CODEDOG]12[CODEDOG]nullPointer[CODEDOG]error[CODEDOG]msg\n")).1 :=
  ⟨by decide, rfl, by decide⟩

/-- C2 (amended): although the stripping in _run_cppcheck acts only on a
discarded local string, the issue records produced by the parser from a
result file beginning with the locale-warning preamble are the same as if
the preamble line had never been present, because the preamble line does
not split into 5 fields and is discarded as malformed. -/
theorem C2_amended (source_dir : String) (rules supported_rules : List String)
    (rest : String) :
    format_result source_dir (readlines (locale_warning ++ rest)) rules supported_rules =
      format_result source_dir (readlines rest) rules supported_rules := by
  rw [readlines_locale_cons]
  have hp : processLine (source_dir.length + 1) rules supported_rules locale_warning = .ok none := by
    simp [processLine, show (pySplit locale_warning).length = 1 from by decide]
  simp [format_result, format_lines, hp]

/-- C3: the rule set used for the scan is the intersection of the requested
set R with the supported catalog S, and when R is empty the broad default
category bundle warning,style,information is put into the enable flag. -/
theorem C3_negotiation (rules supported_rules : List String)
    (id_severity_map : List (String × String)) :
    (∀ r, r ∈ negotiated_rules rules supported_rules ↔
        (r ∈ rules ∧ r ∈ supported_rules)) ∧
    (rules = [] →
      enable_args (negotiated_rules rules supported_rules) id_severity_map =
        some ["--enable=warning,style,information"]) := by
  constructor
  · intro r
    exact mem_negotiated_rules
  · rintro rfl
    simp [negotiated_rules, filtered_rules, enable_args]

/-- C3 witness: negotiation and the empty-request default at concrete inputs. -/
theorem C3_negotiation_witness :
    ("b" ∈ negotiated_rules ["a", "b"] ["b", "c"] ↔
      ("b" ∈ (["a", "b"] : List String) ∧ "b" ∈ (["b", "c"] : List String))) ∧
    enable_args (negotiated_rules [] ["b", "c"]) [("b", "warning")] =
      some ["--enable=warning,style,information"] :=
  ⟨(C3_negotiation ["a", "b"] ["b", "c"] []).1 "b",
   (C3_negotiation [] ["b", "c"] [("b", "warning")]).2 rfl⟩

/-- C4: no issue emitted by _format_result carries a denylisted rule id, and
with requested rules = {"missingInclude"} (after negotiation against any
supported catalog) the final issue list is empty regardless of the raw
lines. -/
theorem C4_denylist :
    (∀ (source_dir : String) (lines : List String)
        (rules supported_rules : List String) (issues : List Issue),
        format_result source_dir lines rules supported_rules = .ok issues →
        ∀ i ∈ issues, i.rule ∉ deny_rules) ∧
    (∀ (source_dir : String) (lines : List String) (supported_rules : List String),
        format_result source_dir lines
          (negotiated_rules ["missingInclude"] supported_rules) supported_rules =
          .ok []) := by
  constructor
  · intro src lines rules sup issues h i hi
    exact (format_lines_rule_filters h i hi).2
  · intro src lines sup
    refine format_lines_all_denied lines ?_
    intro r hr
    rcases mem_negotiated_rules.mp hr with ⟨h1, _⟩
    rcases List.mem_singleton.mp h1 with rfl
    exact List.mem_cons_self _ _

/-- C4 witness: both conjuncts applied at concrete inputs. -/
theorem C4_denylist_witness :
    Issue.rule { path := "a.cpp", line := 12, column := "1",
                 msg := "Null dereference\n", rule := "nullPointer" } ∉ deny_rules ∧
    format_result "/src"
      ["/src/x.c[CODEDOG]3[CODEDOG]missingInclude[CODEDOG]information[CODEDOG]inc\n"]
      (negotiated_rules ["missingInclude"] ["missingInclude"]) ["missingInclude"] =
      .ok [] := by
  constructor
  · exact C4_denylist.1 "/src"
      ["/src/a.cpp[CODEDOG]12[CODEDOG]nullPointer[CODEDOG]error[CODEDOG]Null dereference\n"]
      ["nullPointer"] ["nullPointer"]
      [{ path := "a.cpp", line := 12, column := "1",
         msg := "Null dereference\n", rule := "nullPointer" }] rfl
      { path := "a.cpp", line := 12, column := "1",
        msg := "Null dereference\n", rule := "nullPointer" } (by simp)
  · exact C4_denylist.2 "/src"
      ["/src/x.c[CODEDOG]3[CODEDOG]missingInclude[CODEDOG]information[CODEDOG]inc\n"]
      ["missingInclude"]

/-- C5: every path in the incremental candidate list comes from a diff entry
whose change-state is not the deleted state "del" and whose path ends with an
allow-listed suffix, joined onto the source root. -/
theorem C5_incremental_selection (source_dir p : String) (diffs : List DiffEntry)
    (hp : p ∈ select_incremental source_dir diffs) :
    ∃ d ∈ diffs, d.state ≠ "del" ∧
      (∃ suf ∈ want_suffix, py_endswith d.path suf = true) ∧
      p = os_path_join source_dir d.path := by
  simp only [select_incremental, List.mem_map, List.mem_filter] at hp
  obtain ⟨d, ⟨hd, hcond⟩, rfl⟩ := hp
  rw [Bool.and_eq_true] at hcond
  obtain ⟨hany, hbne⟩ := hcond
  refine ⟨d, hd, ?_, ?_, rfl⟩
  · simpa using hbne
  · obtain ⟨suf, hsuf, hends⟩ := List.any_eq_true.mp hany
    exact ⟨suf, hsuf, hends⟩

/-- C5 witness: a modified .cpp entry is selected; the deleted entry is not. -/
theorem C5_incremental_selection_witness :
    ∃ d ∈ [DiffEntry.mk "a.cpp" "M", DiffEntry.mk "c.cpp" "del"],
      d.state ≠ "del" ∧
      (∃ suf ∈ want_suffix, py_endswith d.path suf = true) ∧
      "/src/a.cpp" = os_path_join "/src" d.path :=
  C5_incremental_selection "/src" "/src/a.cpp"
    [DiffEntry.mk "a.cpp" "M", DiffEntry.mk "c.cpp" "del"] (by decide)

/-- C6: when the expected scan-result file does not exist after the tool
invocation, analyze returns an empty issue list and raises no error. -/
theorem C6_missing_result_empty (source_dir : String)
    (rules supported_rules : List String) :
    analyze_result source_dir none rules supported_rules = .ok [] := rfl

/-- C7: the severity categories computed for the enable flag are exactly the
image of the rule set under the id-to-severity map with "error" removed, and
"error" never appears among them. -/
theorem C7_visitors (id_severity_map : List (String × String))
    (rule_list visitors : List String)
    (h : get_needed_visitors id_severity_map rule_list = some visitors) :
    "error" ∉ visitors ∧
    ∀ v, v ∈ visitors ↔
      (v ≠ "error" ∧ ∃ r ∈ rule_list, dictLookup id_severity_map r = some v) := by
  simp only [get_needed_visitors, Option.map_eq_some'] at h
  obtain ⟨sevs, hm, rfl⟩ := h
  constructor
  · simp [List.mem_dedup, List.mem_filter]
  · intro v
    simp only [List.mem_dedup, List.mem_filter, decide_eq_true_eq]
    rw [mapOpt_some_mem hm v]
    tauto

/-- C7 witness: the theorem applied at a concrete map and rule list. -/
theorem C7_visitors_witness :
    "error" ∉ (["warning"] : List String) ∧
    ("warning" ∈ (["warning"] : List String) ↔
      ("warning" ≠ "error" ∧
        ∃ r ∈ (["nullPointer", "arrayIndexOutOfBounds"] : List String),
          dictLookup [("nullPointer", "error"), ("arrayIndexOutOfBounds", "warning")] r =
            some "warning")) :=
  ⟨(C7_visitors [("nullPointer", "error"), ("arrayIndexOutOfBounds", "warning")]
      ["nullPointer", "arrayIndexOutOfBounds"] ["warning"] (by rfl)).1,
   (C7_visitors [("nullPointer", "error"), ("arrayIndexOutOfBounds", "warning")]
      ["nullPointer", "arrayIndexOutOfBounds"] ["warning"] (by rfl)).2 "warning"⟩

/-- C8: supported-rule discovery raises ConfigError exactly when the
errorlist subprocess exits nonzero, and on a zero exit code returns the
catalog mapping. -/
theorem C8_errorlist_config_error (return_code : Int)
    (errorlist_entries : List (String × String)) :
    ((∃ e, get_id_severity_map return_code errorlist_entries = .error e) ↔
      return_code ≠ 0) ∧
    (return_code = 0 →
      get_id_severity_map return_code errorlist_entries = .ok errorlist_entries) := by
  unfold get_id_severity_map
  by_cases h : return_code = 0 <;> simp [h]

/-- C8 witness: zero exit code returns the catalog; exit code 1 errors. -/
theorem C8_errorlist_config_error_witness :
    get_id_severity_map 0 [("nullPointer", "error")] = .ok [("nullPointer", "error")] ∧
    ((∃ e, get_id_severity_map 1 [("nullPointer", "error")] = .error e) ↔ (1 : Int) ≠ 0) :=
  ⟨(C8_errorlist_config_error 0 [("nullPointer", "error")]).2 rfl,
   (C8_errorlist_config_error 1 [("nullPointer", "error")]).1⟩

/-- C9: the availability probe returns the empty (falsy) capability list
exactly when the version query exits nonzero, and the truthy ["analyze"]
exactly when it exits zero; being a total function it raises nothing. -/
theorem C9_probe (version_return_code : Int) :
    (check_tool_usable version_return_code ≠ [] ↔ version_return_code = 0) ∧
    (version_return_code ≠ 0 → check_tool_usable version_return_code = []) := by
  unfold check_tool_usable
  by_cases h : version_return_code = 0 <;> simp [h]

/-- C9 witness: the probe applied at exit codes 1 and 0. -/
theorem C9_probe_witness :
    check_tool_usable 1 = [] ∧ (check_tool_usable 0 ≠ [] ↔ (0 : Int) = 0) :=
  ⟨(C9_probe 1).2 (by decide), (C9_probe 0).1⟩

/-- C10: a raw line with 5 non-empty fields whose rule passes every filter
but whose line field "abc" is not a decimal integer makes _format_result
raise the ValueError from int() instead of discarding the line. -/
theorem C10_nonnumeric_line_raises :
    (pySplit "/src/a.cpp[CODEDOG]abc[CODEDOG]nullPointer[CODEDOG]error[CODEDOG]msg\n").length = 5 ∧
    "" ∉ pySplit "/src/a.cpp[CODEDOG]abc[CODEDOG]nullPointer[CODEDOG]error[CODEDOG]msg\n" ∧
    pyInt "abc" = none ∧
    format_result "/src"
      ["/src/a.cpp[CODEDOG]abc[CODEDOG]nullPointer[CODEDOG]error[CODEDOG]msg\n"]
      ["nullPointer"] ["nullPointer"] = .error "abc" :=
  ⟨by decide, by decide, by decide, by rfl⟩
